import Mathlib

/-!
# qr-craft: verification of the spec against the source

Shallow embedding of the two pipelines of the qr-craft application:

* the generation pipeline (`src/components/qr-code-generator.tsx`):
  form schema, debounced commit of the text value, artifact rendering,
  logo cropping, and the export actions (copy / download);
* the reading pipeline (`src/components/qr-code-reader.tsx`):
  the decode state machine over `qrCodeData` / `errorMessage` / `qrCodeImage`.

Each definition is translated from the TypeScript source; the encode/decode
algorithms themselves live in third-party libraries (`qrcode.react`,
`@zxing/browser`) and are modelled from their contract in the spec.
-/

namespace QRCraft

/-! ## Data model (generation pipeline)

`formSchema` in `qr-code-generator.tsx`: value (non-empty string),
format ∈ {png, svg}, size ∈ [128, 4096], margin ∈ [0, 4],
fgColor/bgColor strings, logoSize ∈ [1, 50]. -/

/-- The `format` field: `z.enum(['png', 'svg'])`. -/
inductive Format where
  | png
  | svg
deriving DecidableEq, Repr

/-- The fields of `formSchema` (the react-hook-form state). -/
structure GenerationSettings where
  value : String
  format : Format
  size : ℕ
  margin : ℕ
  fgColor : String
  bgColor : String
  logoSize : ℕ
deriving DecidableEq, Repr

/-- The bounds declared by `formSchema` (zod `.min`/`.max` refinements);
`margin ≥ 0` is implicit in the use of `ℕ`. -/
def validSettings (s : GenerationSettings) : Prop :=
  s.value ≠ "" ∧ 128 ≤ s.size ∧ s.size ≤ 4096 ∧ s.margin ≤ 4 ∧
    1 ≤ s.logoSize ∧ s.logoSize ≤ 50

instance (s : GenerationSettings) : Decidable (validSettings s) := by
  unfold validSettings; infer_instance

/-- The `defaultValues` passed to `useForm`. -/
def defaultSettings : GenerationSettings :=
  { value := ""
    format := .png
    size := 1024
    margin := 2
    fgColor := "#000000"
    bgColor := "#FFFFFF"
    logoSize := 20 }

/-! ## Reading pipeline state machine

`QRCodeReader` holds three `useState` cells, all initially `null`:
`qrCodeData`, `errorMessage`, `qrCodeImage`.  The `onDrop` callback sets
`qrCodeImage` as soon as the `FileReader` has loaded the file, then (once
the `Image` has loaded) attempts a decode: on success it sets `qrCodeData`
and clears `errorMessage`; on any caught exception it clears `qrCodeData`
and sets the fixed message. -/

/-- The three state cells of `QRCodeReader`; `none` models `null`. -/
structure ReaderState where
  qrCodeData : Option String
  errorMessage : Option String
  qrCodeImage : Option String
deriving DecidableEq, Repr

/-- All three `useState(null)` initialisers. -/
def ReaderState.initial : ReaderState :=
  { qrCodeData := none, errorMessage := none, qrCodeImage := none }

/-- The fixed message set by the `catch` branch of `onDrop`. -/
def noQRCodeMessage : String := "No QR code found or unable to decode"

/-- The state-mutating events of the reading pipeline, in the order the
`onDrop` callback can emit them.  `decodeFailure` carries the caught
exception, which the `catch` clause discards without inspecting. -/
inductive ReaderEvent where
  | imageLoaded (src : String)
  | decodeSuccess (text : String)
  | decodeFailure (cause : String)
deriving DecidableEq, Repr

/-- One state update of `QRCodeReader`:
* `imageLoaded src`: `setQrCodeImage(img.src)`;
* `decodeSuccess t`: `setQrCodeData(result.getText()); setErrorMessage(null)`;
* `decodeFailure c`: `setQrCodeData(null); setErrorMessage('No QR code found or unable to decode')`,
  ignoring the cause `c`. -/
def readerStep (s : ReaderState) : ReaderEvent → ReaderState
  | .imageLoaded src => { s with qrCodeImage := some src }
  | .decodeSuccess t => { s with qrCodeData := some t, errorMessage := none }
  | .decodeFailure _ => { s with qrCodeData := none, errorMessage := some noQRCodeMessage }

/-- Run a sequence of reader events. -/
def readerRun (s : ReaderState) (es : List ReaderEvent) : ReaderState :=
  es.foldl readerStep s

/-- The events one `onDrop` of a file emits, in program order: the preview
is set from `reader.onload`, before `img.onload` fires the decode; the
decode then completes with either text or a failure cause. -/
def dropTrace (src : String) (outcome : Except String String) : List ReaderEvent :=
  [.imageLoaded src,
   match outcome with
   | .ok t => .decodeSuccess t
   | .error c => .decodeFailure c]

/-- A reader event is a completed decode attempt. -/
def ReaderEvent.isDecode : ReaderEvent → Bool
  | .imageLoaded _ => false
  | .decodeSuccess _ => true
  | .decodeFailure _ => true

/-- Exactly one of `qrCodeData` / `errorMessage` is set. -/
def exactlyOneResult (s : ReaderState) : Prop :=
  (s.qrCodeData ≠ none ∧ s.errorMessage = none) ∨
    (s.qrCodeData = none ∧ s.errorMessage ≠ none)

instance (s : ReaderState) : Decidable (exactlyOneResult s) := by
  unfold exactlyOneResult; infer_instance

/-- Both result cells are absent. -/
def noResult (s : ReaderState) : Prop :=
  s.qrCodeData = none ∧ s.errorMessage = none

instance (s : ReaderState) : Decidable (noResult s) := by
  unfold noResult; infer_instance

/-- Two per-file event sequences interleaved in some completion order,
each file's own events kept in program order.  The source registers the
`FileReader`/`Image`/decode callbacks with no generation counter, so any
interleaving of two drops' callbacks is a possible execution. -/
inductive Interleave {α : Type} : List α → List α → List α → Prop
  | nil : Interleave [] [] []
  | left {a : α} {as bs cs : List α} :
      Interleave as bs cs → Interleave (a :: as) bs (a :: cs)
  | right {b : α} {as bs cs : List α} :
      Interleave as bs cs → Interleave as (b :: bs) (b :: cs)

/-! ## Generation pipeline: committed value and debounce

`QRCodeGenerator` keeps the committed value in `qrValue` (`useState('')`).
`handleSubmit` copies the form's `value` field into `qrValue`.  The
`form.watch` subscription calls `debouncedHandleSubmit` (a 500 ms trailing
debounce of `handleSubmit`) when the edited field is `value`, and
`handleSubmit` directly for every other field. -/

/-- One field edit observed by the `form.watch` subscription, at a given
time (ms).  For an edit to the `value` field, `newValue` is the new
content; an edit to any other field leaves the `value` field unchanged. -/
structure FormEdit where
  time : ℕ
  isValueField : Bool
  newValue : String
deriving DecidableEq, Repr

/-- The debounce-relevant state: the form's current `value` field, the
pending trailing-edge fire time of `debouncedHandleSubmit` (if any), and
the committed updates (`setQrValue` arguments) emitted so far. -/
structure DebounceState where
  formValue : String
  pending : Option ℕ
  commits : List String
deriving DecidableEq, Repr

/-- The delay passed to `useDebouncedCallback(handleSubmit, 500)`. -/
def debounceDelay : ℕ := 500

/-- Fire a pending debounce whose deadline has passed by time `t`:
the trailing-edge call runs `handleSubmit`, which reads the form's
current `value` at fire time and commits it. -/
def flushPending (s : DebounceState) (t : ℕ) : DebounceState :=
  match s.pending with
  | some ft =>
      if ft ≤ t then
        { s with pending := none, commits := s.commits ++ [s.formValue] }
      else s
  | none => s

/-- Process one form edit at its time:
any expired debounce fires first; then an edit to `value` stores the new
content and (re)schedules the trailing fire at `time + 500`, while an edit
to any other field calls `handleSubmit` at once, committing the current
`value`, and leaves the debounce timer alone. -/
def stepEdit (s : DebounceState) (e : FormEdit) : DebounceState :=
  let s := flushPending s e.time
  if e.isValueField then
    { s with formValue := e.newValue, pending := some (e.time + debounceDelay) }
  else
    { s with commits := s.commits ++ [s.formValue] }

/-- Process a list of edits (in time order) and then let any pending
debounce fire. -/
def runEdits (s : DebounceState) : List FormEdit → DebounceState
  | [] =>
      match s.pending with
      | some _ => { s with pending := none, commits := s.commits ++ [s.formValue] }
      | none => s
  | e :: es => runEdits (stepEdit s e) es

/-- Consecutive timed edits each arriving strictly after the previous one
but strictly within the quiet window of `debounceDelay` ms. -/
def rapidAfter : ℕ → List (ℕ × String) → Prop
  | _, [] => True
  | t, (t', _) :: es => t < t' ∧ t' < t + debounceDelay ∧ rapidAfter t' es

instance : ∀ (t : ℕ) (es : List (ℕ × String)), Decidable (rapidAfter t es)
  | _, [] => .isTrue trivial
  | t, (t', _) :: es =>
      have : Decidable (rapidAfter t' es) := instDecidableRapidAfter t' es
      by unfold rapidAfter; infer_instance

/-- The value of the form's `value` field after a list of timed edits. -/
def lastValue (v : String) : List (ℕ × String) → String
  | [] => v
  | (_, w) :: es => lastValue w es

/-- A timed edit to the `value` field. -/
def valueEdit (p : ℕ × String) : FormEdit :=
  { time := p.1, isValueField := true, newValue := p.2 }

/-! ## Generation pipeline: rendered artifact

The JSX renders `QRCodeCanvas` (format `png`) or `QRCodeSVG` (format `svg`)
only inside `{qrValue && ...}`, passing the committed `qrValue` as `value`,
the current form fields as `size`/`marginSize`/`fgColor`/`bgColor`, and an
`imageSettings` overlay when a logo is cached. -/

/-- The `imageSettings` prop built for the rendering widget when a logo is
present: `height = width = size * logoSize / 100`, `excavate: true`. -/
structure ImageSettings where
  src : String
  height : ℚ
  width : ℚ
  excavate : Bool
deriving DecidableEq, Repr

/-- The props handed to `QRCodeCanvas` / `QRCodeSVG` (the widget choice is
recorded in `format`). -/
structure RenderedArtifact where
  format : Format
  value : String
  size : ℕ
  marginSize : ℕ
  fgColor : String
  bgColor : String
  imageSettings : Option ImageSettings
deriving DecidableEq, Repr

/-- The logo overlay spec: `size * logoSize / 100` pixels square,
excavated. -/
def logoOverlay (size logoSize : ℕ) (logo : Option String) : Option ImageSettings :=
  logo.map fun l =>
    { src := l
      height := ((size : ℚ) * logoSize) / 100
      width := ((size : ℚ) * logoSize) / 100
      excavate := true }

/-- The artifact block of `QRCodeGenerator`'s JSX: nothing is rendered
while `qrValue` is the empty string (falsy); otherwise the widget for the
selected format is rendered from the form fields and the committed value. -/
def renderArtifact (form : GenerationSettings) (qrValue : String)
    (logo : Option String) : Option RenderedArtifact :=
  if qrValue = "" then none
  else
    some
      { format := form.format
        value := qrValue
        size := form.size
        marginSize := form.margin
        fgColor := form.fgColor
        bgColor := form.bgColor
        imageSettings := logoOverlay form.size form.logoSize logo }

/-- `handleSubmit`: `setQrValue(form.getValues().value)` — the committed
value becomes the form's current `value` field. -/
def handleSubmit (form : GenerationSettings) (_qrValue : String) : String :=
  form.value

/-- The initialiser of the committed value: `useState('')`. -/
def initialQrValue : String := ""

/-- Modelled from the spec: the encode/decode algorithms are external
capabilities (`qrcode.react`, `@zxing/browser`), outside this repository
(spec §1, §6).  §6 contracts the rendering capability to produce an
artifact encoding the given text value and the decode capability to return
the decoded text of a loaded image; §8 states their composition as a
round-trip.  Under that contract, decoding an artifact recovers exactly
the `value` it was rendered with. -/
def decodeCapability (a : RenderedArtifact) : Option String :=
  some a.value

/-! ## Generation pipeline: export actions -/

/-- The `disabled` prop of the "Copy QR Code" button:
`form.getValues('format') === 'svg'`. -/
def copyButtonDisabled (format : Format) : Bool :=
  format == .svg

/-- A `sonner` toast notification. -/
inductive Toast where
  | success (msg : String)
  | error (msg : String)
deriving DecidableEq, Repr

/-- The outcome of the asynchronous `navigator.clipboard.write` call
(together with `ClipboardItem` construction): it resolves, or rejects with
an error that the `catch` block receives. -/
inductive ClipboardResult where
  | ok
  | failed (e : String)
deriving DecidableEq, Repr

/-- `copyQRCode`: returns the toasts the call emits.
* `qrRef.current` absent → early `return`, no toast;
* format `png` and the ref is a canvas (the artifact was rendered by
  `QRCodeCanvas`, i.e. its format is `png`): `canvas.toBlob` resolves with
  a blob or `null`; with a blob, the clipboard write succeeds
  (`toast.success`) or throws into the `catch` (`toast.error`); with
  `null`, the `if (blob)` guard skips everything — no toast;
* any other format/ref combination falls through the `if` with no toast. -/
def copyQRCode (format : Format) (qrRef : Option RenderedArtifact)
    (toBlob : Option Unit) (clipboard : ClipboardResult) : List Toast :=
  match qrRef with
  | none => []
  | some a =>
      if format == .png && a.format == .png then
        match toBlob with
        | some _ =>
            match clipboard with
            | .ok => [.success "QR Code copied to clipboard!"]
            | .failed _ => [.error "Failed to copy QR Code. Please try again."]
        | none => []
      else []

/-! ## Generation pipeline: logo cropping

`handleLogoUpload` loads the accepted file into an `Image`; on load it
creates a canvas of side `min(width, height)` and draws the centred square
of the source image onto it. -/

/-- The dimensions of a loaded logo image. -/
structure SourceImage where
  width : ℕ
  height : ℕ
deriving DecidableEq, Repr

/-- The arguments of the 9-argument `ctx.drawImage(img, sx, sy, sw, sh,
dx, dy, dw, dh)` call: source rectangle then destination rectangle. -/
structure DrawImageArgs where
  sx : ℚ
  sy : ℚ
  sw : ℚ
  sh : ℚ
  dx : ℚ
  dy : ℚ
  dw : ℚ
  dh : ℚ
deriving DecidableEq, Repr

/-- The canvas prepared by `processImage` and the draw it performs. -/
structure CroppedLogo where
  canvasWidth : ℕ
  canvasHeight : ℕ
  draw : DrawImageArgs
deriving DecidableEq, Repr

/-- The `img.onload` body of `processImage`:
`size = Math.min(img.width, img.height)`; the canvas is `size × size`;
`offsetX = (img.width - size) / 2`, `offsetY = (img.height - size) / 2`
(JavaScript division, hence over `ℚ`); then
`ctx.drawImage(img, offsetX, offsetY, size, size, 0, 0, size, size)`. -/
def cropLogo (img : SourceImage) : CroppedLogo :=
  let size := min img.width img.height
  let offsetX : ℚ := ((img.width : ℚ) - size) / 2
  let offsetY : ℚ := ((img.height : ℚ) - size) / 2
  { canvasWidth := size
    canvasHeight := size
    draw :=
      { sx := offsetX, sy := offsetY, sw := size, sh := size
        dx := 0, dy := 0, dw := size, dh := size } }

/-- A concrete `png` artifact, as rendered from `defaultSettings` with the
committed value `"x"` and no logo. -/
def samplePngArtifact : RenderedArtifact :=
  { format := .png
    value := "x"
    size := 1024
    marginSize := 2
    fgColor := "#000000"
    bgColor := "#FFFFFF"
    imageSettings := none }

/-! ## Helper lemmas -/

/-- Trailing-debounce runs: while a fire is pending at `t + debounceDelay`
and every further edit arrives strictly within the quiet window of its
predecessor, no intermediate fire happens; the single trailing fire
commits the last edited value. -/
theorem runEdits_rapid (es : List (ℕ × String)) :
    ∀ (v : String) (t : ℕ) (c : List String), rapidAfter t es →
      runEdits ⟨v, some (t + debounceDelay), c⟩ (es.map valueEdit) =
        ⟨lastValue v es, none, c ++ [lastValue v es]⟩ := by
  induction es with
  | nil =>
      intro v t c _
      simp [runEdits, lastValue]
  | cons p es ih =>
      obtain ⟨t', w⟩ := p
      intro v t c h
      obtain ⟨h1, h2, h3⟩ := h
      have hlt : ¬ (t + debounceDelay ≤ t') := by omega
      have hstep : stepEdit ⟨v, some (t + debounceDelay), c⟩ (valueEdit (t', w)) =
          ⟨w, some (t' + debounceDelay), c⟩ := by
        simp [stepEdit, flushPending, valueEdit, hlt]
      simp only [List.map_cons, runEdits, hstep, lastValue]
      exact ih w t' c h3

/-! ## Claims -/

/-- C2: after every completed decode attempt (success or failure), whatever
the sequence of prior events, exactly one of `qrCodeData` / `errorMessage`
is set and the other is absent; in the initial state, before any file has
been processed, both are absent. -/
theorem decode_result_exclusive (es : List ReaderEvent) (e : ReaderEvent)
    (h : e.isDecode = true) :
    exactlyOneResult (readerRun ReaderState.initial (es ++ [e]))
    ∧ noResult ReaderState.initial := by
  constructor
  · show exactlyOneResult ((es ++ [e]).foldl readerStep ReaderState.initial)
    rw [List.foldl_append]
    cases e with
    | imageLoaded src => simp [ReaderEvent.isDecode] at h
    | decodeSuccess t =>
        left
        exact ⟨by simp [readerStep], by simp [readerStep]⟩
    | decodeFailure c =>
        right
        exact ⟨by simp [readerStep], by simp [readerStep, noQRCodeMessage]⟩
  · exact ⟨rfl, rfl⟩

/-- Witness for C2 at the concrete trace `[decodeFailure "e"]`. -/
theorem decode_result_exclusive_witness :
    exactlyOneResult (readerRun ReaderState.initial ([] ++ [.decodeFailure "e"]))
    ∧ noResult ReaderState.initial :=
  decode_result_exclusive [] (.decodeFailure "e") rfl

/-- C7 counterexample: the fixed message the code sets on a decode failure
is `"No QR code found or unable to decode"`, not the claimed
`"no code found or unable to decode"`. -/
theorem decode_failure_message_cex :
    (readerStep ReaderState.initial (.decodeFailure "boom")).errorMessage
      ≠ some "no code found or unable to decode" := by
  decide

/-- C7 amended: every decode failure, whatever its cause, clears the prior
decoded text and sets the error message to the single fixed string
`"No QR code found or unable to decode"`; the cause is not inspected, so
no distinction between failure causes is surfaced. -/
theorem decode_failure_clears_text (s : ReaderState) (cause : String) :
    (readerStep s (.decodeFailure cause)).qrCodeData = none
    ∧ (readerStep s (.decodeFailure cause)).errorMessage =
        some "No QR code found or unable to decode"
    ∧ ∀ c' : String, readerStep s (.decodeFailure cause) = readerStep s (.decodeFailure c') :=
  ⟨rfl, rfl, fun _ => rfl⟩

/-- C10: the preview is set by the first event of a drop trace, before any
decode outcome; neither decode outcome touches `qrCodeImage`; after a
failed decode the preview of the rejected image remains, alongside the
error message. -/
theorem preview_survives_decode (s : ReaderState) (src : String)
    (outcome : Except String String) :
    (readerRun s [.imageLoaded src]).qrCodeImage = some src
    ∧ (readerRun s (dropTrace src outcome)).qrCodeImage = some src
    ∧ (∀ t, (readerStep s (.decodeSuccess t)).qrCodeImage = s.qrCodeImage)
    ∧ (∀ c, (readerStep s (.decodeFailure c)).qrCodeImage = s.qrCodeImage)
    ∧ (readerRun s (dropTrace src (.error "e"))).qrCodeImage = some src
    ∧ (readerRun s (dropTrace src (.error "e"))).errorMessage = some noQRCodeMessage := by
  refine ⟨rfl, ?_, fun _ => rfl, fun _ => rfl, rfl, rfl⟩
  cases outcome <;> rfl

/-- C8: no artifact is rendered while the committed value is empty — in
particular in the initial state — and an artifact exists exactly when the
committed value is non-empty. -/
theorem no_artifact_when_empty (form : GenerationSettings) (logo : Option String) :
    renderArtifact form "" logo = none
    ∧ renderArtifact form initialQrValue logo = none
    ∧ ∀ qrValue : String, (renderArtifact form qrValue logo).isSome ↔ qrValue ≠ "" := by
  refine ⟨by simp [renderArtifact], by simp [renderArtifact, initialQrValue], ?_⟩
  intro qrValue
  by_cases h : qrValue = "" <;> simp [renderArtifact, h]

/-- C6: the cached logo is drawn on a square canvas of side
`min(width, height)`, from the source rectangle of that side at offsets
`((width - side)/2, (height - side)/2)`, onto the full destination canvas. -/
theorem logo_crop_square (img : SourceImage) :
    (cropLogo img).canvasWidth = min img.width img.height
    ∧ (cropLogo img).canvasHeight = (cropLogo img).canvasWidth
    ∧ (cropLogo img).draw.sx = ((img.width : ℚ) - (min img.width img.height : ℕ)) / 2
    ∧ (cropLogo img).draw.sy = ((img.height : ℚ) - (min img.width img.height : ℕ)) / 2
    ∧ (cropLogo img).draw.sw = ((min img.width img.height : ℕ) : ℚ)
    ∧ (cropLogo img).draw.sh = ((min img.width img.height : ℕ) : ℚ)
    ∧ (cropLogo img).draw.dx = 0
    ∧ (cropLogo img).draw.dy = 0
    ∧ (cropLogo img).draw.dw = (cropLogo img).draw.sw
    ∧ (cropLogo img).draw.dh = (cropLogo img).draw.sh :=
  ⟨rfl, rfl, rfl, rfl, rfl, rfl, rfl, rfl, rfl, rfl⟩

/-- C5: with a rendered artifact present, the copy button is disabled
exactly when the selected format is `svg`, and enabled for `png`. -/
theorem copy_disabled_iff_svg (form : GenerationSettings) (qrValue : String)
    (logo : Option String) (a : RenderedArtifact)
    (_h : renderArtifact form qrValue logo = some a) :
    (copyButtonDisabled form.format = true ↔ form.format = .svg)
    ∧ (form.format = .png → copyButtonDisabled form.format = false) := by
  cases hf : form.format <;> simp [copyButtonDisabled, hf]

/-- Witness for C5: the default settings with committed value `"x"` render
an artifact, and the copy button is enabled for the default `png` format. -/
theorem copy_disabled_iff_svg_witness :
    (copyButtonDisabled defaultSettings.format = true ↔ defaultSettings.format = .svg)
    ∧ (defaultSettings.format = .png → copyButtonDisabled defaultSettings.format = false) :=
  copy_disabled_iff_svg defaultSettings "x" none samplePngArtifact (by decide)

/-- C1: for every valid settings state with non-empty value, committing the
value and rendering produces an artifact, and the decode capability (per
its spec contract) recovers exactly the original value string. -/
theorem encode_decode_roundtrip (form : GenerationSettings) (logo : Option String)
    (h : validSettings form) :
    ∃ a : RenderedArtifact,
      renderArtifact form (handleSubmit form initialQrValue) logo = some a
      ∧ decodeCapability a = some form.value := by
  obtain ⟨hv, -⟩ := h
  refine ⟨{ format := form.format, value := form.value, size := form.size,
            marginSize := form.margin, fgColor := form.fgColor, bgColor := form.bgColor,
            imageSettings := logoOverlay form.size form.logoSize logo }, ?_, rfl⟩
  simp [renderArtifact, handleSubmit, hv]

/-- Witness for C1 at the value `"https://example.com"` in the default
settings. -/
theorem encode_decode_roundtrip_witness :
    validSettings { defaultSettings with value := "https://example.com" }
    ∧ ∃ a : RenderedArtifact,
        renderArtifact { defaultSettings with value := "https://example.com" }
            (handleSubmit { defaultSettings with value := "https://example.com" }
              initialQrValue) none = some a
        ∧ decodeCapability a = some "https://example.com" :=
  ⟨by decide, encode_decode_roundtrip { defaultSettings with value := "https://example.com" }
    none (by decide)⟩

/-- C9 counterexample: a copy invocation in `png` format with an artifact
present but whose `canvas.toBlob` resolves with `null` completes with no
notification at all, not exactly one. -/
theorem copy_no_toast_on_null_blob :
    (copyQRCode .png (some samplePngArtifact) none .ok).length ≠ 1 := by
  decide

/-- C9 amended: a copy invocation in `png` format with an artifact present
emits exactly one notification — success or failure of the clipboard
write — provided `canvas.toBlob` produces a blob; when it resolves with
`null`, the invocation completes silently with no notification. -/
theorem copy_toast_amended (format : Format) (a : RenderedArtifact)
    (clipboard : ClipboardResult) (hf : format = .png) (ha : a.format = .png) :
    (copyQRCode format (some a) (some ()) clipboard).length = 1
    ∧ (copyQRCode format (some a) (some ()) clipboard =
          [.success "QR Code copied to clipboard!"]
        ∨ copyQRCode format (some a) (some ()) clipboard =
          [.error "Failed to copy QR Code. Please try again."])
    ∧ copyQRCode format (some a) none clipboard = [] := by
  subst hf
  cases clipboard <;> simp [copyQRCode, ha]

/-- Witness for C9's amended statement at a concrete `png` artifact. -/
theorem copy_toast_amended_witness :
    (copyQRCode .png (some samplePngArtifact) (some ()) .ok).length = 1
    ∧ (copyQRCode .png (some samplePngArtifact) (some ()) .ok =
          [.success "QR Code copied to clipboard!"]
        ∨ copyQRCode .png (some samplePngArtifact) (some ()) .ok =
          [.error "Failed to copy QR Code. Please try again."])
    ∧ copyQRCode .png (some samplePngArtifact) none .ok = [] :=
  copy_toast_amended .png samplePngArtifact .ok rfl rfl

/-- C3: a run of value edits, each strictly within the quiet window of its
predecessor, yields exactly one committed update, equal to the last edit;
an edit to any non-value field commits the current value immediately. -/
theorem debounce_commits_once (v0 v1 : String) (t1 : ℕ) (es : List (ℕ × String))
    (h : rapidAfter t1 es) :
    (runEdits ⟨v0, none, []⟩ (((t1, v1) :: es).map valueEdit)).commits = [lastValue v1 es]
    ∧ ∀ (s : DebounceState) (e : FormEdit), e.isValueField = false →
        (stepEdit s e).commits = (flushPending s e.time).commits ++ [s.formValue] := by
  constructor
  · have step1 : stepEdit ⟨v0, none, []⟩ (valueEdit (t1, v1)) =
        ⟨v1, some (t1 + debounceDelay), []⟩ := rfl
    simp only [List.map_cons, runEdits, step1]
    simpa using congrArg DebounceState.commits (runEdits_rapid es v1 t1 [] h)
  · intro s e he
    have hfv : (flushPending s e.time).formValue = s.formValue := by
      unfold flushPending
      cases s.pending with
      | none => rfl
      | some ft =>
          dsimp only
          split <;> rfl
    simp [stepEdit, he, hfv]

/-- Witness for C3: three rapid edits `"h"`, `"he"`, `"hey"` at 0, 100,
200 ms commit exactly once, with the final text. -/
theorem debounce_commits_once_witness :
    (runEdits ⟨"", none, []⟩ ([(0, "h"), (100, "he"), (200, "hey")].map valueEdit)).commits
      = ["hey"] := by
  have h := (debounce_commits_once "" "h" 0 [(100, "he"), (200, "hey")] (by decide)).1
  simpa [lastValue] using h

/-- C4 counterexample: the reading pipeline has no supersession check, so
the interleaving in which file B is accepted after file A but A's decode
completes last is admissible, and A's stale result overwrites the state
produced by the later input B. -/
theorem stale_decode_overwrites :
    Interleave (dropTrace "fileA" (.ok "textA")) (dropTrace "fileB" (.ok "textB"))
      [.imageLoaded "fileA", .imageLoaded "fileB",
       .decodeSuccess "textB", .decodeSuccess "textA"]
    ∧ (readerRun ReaderState.initial
        [.imageLoaded "fileA", .imageLoaded "fileB",
         .decodeSuccess "textB", .decodeSuccess "textA"]).qrCodeData = some "textA"
    ∧ "textA" ≠ "textB" := by
  refine ⟨?_, by decide, by decide⟩
  exact .left (.right (.right (.left .nil)))

/-- C4 amended: a later text edit does supersede an earlier in-flight
debounce (the single trailing commit carries the latest edit), but decode
outcomes are applied in completion order with no supersession check: each
completion unconditionally overwrites the result cells. -/
theorem supersession_amended :
    (∀ (v0 v1 v2 : String) (t1 t2 : ℕ), t1 < t2 → t2 < t1 + debounceDelay →
        (runEdits ⟨v0, none, []⟩ [valueEdit (t1, v1), valueEdit (t2, v2)]).commits = [v2])
    ∧ (∀ (s : ReaderState) (t : String),
        (readerStep s (.decodeSuccess t)).qrCodeData = some t)
    ∧ (∀ (s : ReaderState) (c : String),
        (readerStep s (.decodeFailure c)).qrCodeData = none) := by
  refine ⟨?_, fun _ _ => rfl, fun _ _ => rfl⟩
  intro v0 v1 v2 t1 t2 h1 h2
  have key := runEdits_rapid [(t2, v2)] v1 t1 [] ⟨h1, h2, trivial⟩
  have step1 : stepEdit ⟨v0, none, []⟩ (valueEdit (t1, v1)) =
      ⟨v1, some (t1 + debounceDelay), []⟩ := rfl
  simp only [List.map_cons, List.map_nil, lastValue, List.nil_append] at key
  show (runEdits (stepEdit ⟨v0, none, []⟩ (valueEdit (t1, v1))) [valueEdit (t2, v2)]).commits
      = [v2]
  rw [step1, key]

/-- Witness for C4's amended statement: two edits 1 ms apart commit once
with the later text, and a decode completion overwrites the data cell. -/
theorem supersession_amended_witness :
    (runEdits ⟨"", none, []⟩ [valueEdit (0, "x"), valueEdit (1, "xy")]).commits = ["xy"]
    ∧ (readerStep ReaderState.initial (.decodeSuccess "t")).qrCodeData = some "t" :=
  ⟨supersession_amended.1 "" "x" "xy" 0 1 (by decide) (by decide),
   supersession_amended.2.1 ReaderState.initial "t"⟩

end QRCraft
